import Mathlib

/-!
Verification development for the monthly nurse work-schedule CP-SAT model
(main.py).  The decision variables of the model are embedded as boolean
valued functions; every constraint emitted by build_and_solve is embedded
as a decidable proposition over those functions, translated clause by
clause from the source.  Theorems then settle the specified properties of
every feasible model solution.
-/

namespace WorkSchedule

/-- Shift kinds of the model: D (standard day shift), N (night shift),
R8 (8-hour morning shift for the extra nurse).  Source: main.py line 72. -/
inductive Shift where
  | D
  | N
  | R8
  deriving DecidableEq, Fintype, Repr

/-- Configuration record, with the defaults of the dataclass ProblemData
in main.py lines 38-54. -/
structure ProblemData where
  base_nurses : Nat := 21
  extra_nurses : Nat := 1
  num_days : Nat := 31
  day_shift_hours : Int := 11
  night_shift_hours : Int := 11
  eight_hour_shift_hours : Int := 8
  min_hours : Int := 140
  max_hours : Int := 146
  target_hours : Int := 145
  workday_shift_min : Int := 9
  workday_shift_max : Int := 10
  weekend_shift_min : Int := 6
  weekend_shift_max : Int := 6
  deriving DecidableEq, Repr

/-- Total number of nurses (property num_nurses, main.py lines 56-58). -/
def ProblemData.num_nurses (data : ProblemData) : Nat :=
  data.base_nurses + data.extra_nurses

/-- The default configuration, ProblemData() in main. -/
def defaultData : ProblemData := {}

/-- Weekend detection (main.py lines 75-79): Saturday/Sunday of the four
full Monday-start weeks; days at index 28 and beyond are never weekends. -/
def is_weekend (day : Nat) : Bool :=
  if day ≥ 28 then false
  else
    let dow := day % 7
    dow == 5 || dow == 6

/-- Allowed shifts per nurse (main.py lines 85-96): base nurses take D and
N, except nurse index 2 who is forbidden nights (D only); the extra nurses
are R8-only. -/
def nurse_shifts (data : ProblemData) (n : Nat) : List Shift :=
  if n < data.base_nurses then
    if n = 2 then [Shift.D] else [Shift.D, Shift.N]
  else
    [Shift.R8]

/-- An assignment of boolean decision variables x[(n, d, s)]. -/
abbrev Asg := Nat → Nat → Shift → Bool

/-- A family of boolean indicator variables indexed by (nurse, day). -/
abbrev Ind := Nat → Nat → Bool

/-- Whether the key (n, d, s) is present in the variable dictionary x
(main.py lines 100-104): variables exist exactly for allowed shifts of
existing nurses on days of the horizon. -/
def hasVar (data : ProblemData) (n d : Nat) (s : Shift) : Bool :=
  decide (n < data.num_nurses) && decide (d < data.num_days)
    && decide (s ∈ nurse_shifts data n)

/-- Value of a boolean variable as the integer the linear constraints see. -/
def bi (b : Bool) : Int :=
  if b then 1 else 0

/-- Contribution of x[(n, d, s)] to a sum guarded by the membership test
"if (n, d, s) in x"; an absent key contributes nothing. -/
def xVar (data : ProblemData) (x : Asg) (n d : Nat) (s : Shift) : Int :=
  if hasVar data n d s then bi (x n d s) else 0

/-- The workdays of the horizon (main.py line 81). -/
def workdayFinset (data : ProblemData) : Finset Nat :=
  (Finset.range data.num_days).filter (fun d => is_weekend d = false)

/-- The weekend days of the horizon (main.py line 82). -/
def weekendFinset (data : ProblemData) : Finset Nat :=
  (Finset.range data.num_days).filter (fun d => is_weekend d = true)

/-- Total night count of a nurse,
sum(x[(n, d, N)] for d in days if (n, d, N) in x)  (main.py line 182). -/
def nightCount (data : ProblemData) (x : Asg) (n : Nat) : Int :=
  ∑ d ∈ Finset.range data.num_days, xVar data x n d Shift.N

/-- Hour value of a day shift of nurse n on day d (main.py lines 136-141):
nurse index 0 gets 10 hours on Monday-Thursday non-weekend days, everyone
else gets day_shift_hours. -/
def dayCoef (data : ProblemData) (n d : Nat) : Int :=
  if n == 0 && !is_weekend d && [0, 1, 2, 3].contains (d % 7) then 10
  else data.day_shift_hours

/-- Total hours of a base nurse (main.py lines 133-146): day hours with
the custom coefficient plus night hours. -/
def nurseHours (data : ProblemData) (x : Asg) (n : Nat) : Int :=
  (∑ d ∈ Finset.range data.num_days, dayCoef data n d * xVar data x n d Shift.D)
    + data.night_shift_hours * nightCount data x n

/-- Shift count of an extra nurse over workdays (main.py line 157). -/
def extraShiftSum (data : ProblemData) (x : Asg) (n : Nat) : Int :=
  ∑ d ∈ workdayFinset data,
    ((nurse_shifts data n).map (fun s => xVar data x n d s)).sum

/-- Count of base-nurse D assignments on a day,
sum(x[(n, d, D)] for n in base_nurses if (n, d, D) in x) (main.py line 122). -/
def baseDayCount (data : ProblemData) (x : Asg) (d : Nat) : Int :=
  ∑ n ∈ Finset.range data.base_nurses, xVar data x n d Shift.D

/-- The weekend coverage constraint of main.py line 122:
add_linear_constraint(day count, weekend_shift_min, weekend_shift_max). -/
def weekendCoverageOK (data : ProblemData) (x : Asg) (d : Nat) : Prop :=
  data.weekend_shift_min ≤ baseDayCount data x d
    ∧ baseDayCount data x d ≤ data.weekend_shift_max

/-- Count of a nurse's R8 assignments over the whole horizon. -/
def totalR8Count (data : ProblemData) (x : Asg) (n : Nat) : Int :=
  ∑ d ∈ Finset.range data.num_days, xVar data x n d Shift.R8

/-- A nurse is fully off on a day: no shift of any kind is assigned. -/
def fullyOff (x : Asg) (n d : Nat) : Prop :=
  ∀ sh : Shift, x n d sh = false

/-- Variables exist only for allowed shifts (main.py lines 98-104): an
assignment may set x n d s only when the key (n, d, s) was created, that
is, when s is an allowed shift of nurse n. -/
def eligibilityOK (data : ProblemData) (x : Asg) : Prop :=
  ∀ n < data.num_nurses, ∀ d < data.num_days, ∀ s : Shift,
    x n d s = true → s ∈ nurse_shifts data n

/-- Constraint group 5 of main.py (lines 173-184): each base nurse other
than index 2 has between 1 and 3 night shifts.  For nurse index 2 the
loop adds x[(2, d, N)] == 0 only for keys that exist, and none do. -/
def nightCountOK (data : ProblemData) (x : Asg) : Prop :=
  ∀ n < data.base_nurses, n ≠ 2 →
    1 ≤ nightCount data x n ∧ nightCount data x n ≤ 3

/-- Pair-variable defining constraints of main.py lines 188-197: for each
base nurse and day d with both night variables present, p ≤ x(d, N),
p ≤ x(d+1, N) and x(d, N) + x(d+1, N) - 1 ≤ p; otherwise the list entry
is the constant 0. -/
def pairConsistentOK (data : ProblemData) (x : Asg) (p : Ind) : Prop :=
  ∀ n < data.base_nurses, ∀ d < data.num_days - 1,
    ((hasVar data n d Shift.N && hasVar data n (d + 1) Shift.N) = true →
      bi (p n d) ≤ bi (x n d Shift.N)
        ∧ bi (p n d) ≤ bi (x n (d + 1) Shift.N)
        ∧ bi (x n d Shift.N) + bi (x n (d + 1) Shift.N) - 1 ≤ bi (p n d))
    ∧ ((hasVar data n d Shift.N && hasVar data n (d + 1) Shift.N) = false →
      p n d = false)

/-- No overlapping pair starts (main.py lines 198-199):
pair_vars[d] + pair_vars[d+1] ≤ 1. -/
def noTripleOK (data : ProblemData) (p : Ind) : Prop :=
  ∀ n < data.base_nurses, ∀ d < data.num_days - 2,
    bi (p n d) + bi (p n (d + 1)) ≤ 1

/-- Body of the singleton-variable defining constraints of main.py lines
200-217 at one nurse-day: when the night variable exists, s ≤ x(d, N),
s plus each adjacent pair variable is at most 1, and x(d, N) minus the
adjacent pair variables minus s is at most 0; otherwise the list entry is
the constant 0. -/
def singletonConsistentND (data : ProblemData) (x : Asg) (p : Ind) (s : Ind)
    (n d : Nat) : Prop :=
  (hasVar data n d Shift.N = true →
    bi (s n d) ≤ bi (x n d Shift.N)
      ∧ (1 ≤ d → bi (s n d) + bi (p n (d - 1)) ≤ 1)
      ∧ (d < data.num_days - 1 → bi (s n d) + bi (p n d) ≤ 1)
      ∧ bi (x n d Shift.N)
          - (if 1 ≤ d then bi (p n (d - 1)) else 0)
          - (if d < data.num_days - 1 then bi (p n d) else 0)
          - bi (s n d) ≤ 0)
  ∧ (hasVar data n d Shift.N = false → s n d = false)

/-- Singleton-variable defining constraints over all base nurses and days. -/
def singletonConsistentOK (data : ProblemData) (x : Asg) (p : Ind) (s : Ind) : Prop :=
  ∀ n < data.base_nurses, ∀ d < data.num_days, singletonConsistentND data x p s n d

/-- Body of the pair rest constraints of main.py lines 218-230 at one
nurse-day, applicable when the pair entry at d is a real pair variable
(both night variables exist): the D variable on the day before, and the D
and N variables two and three days after, may not be set together with
the pair variable. -/
def pairRestND (data : ProblemData) (x : Asg) (p : Ind) (n d : Nat) : Prop :=
  (hasVar data n d Shift.N && hasVar data n (d + 1) Shift.N) = true →
    (1 ≤ d → hasVar data n (d - 1) Shift.D = true →
      bi (x n (d - 1) Shift.D) + bi (p n d) ≤ 1)
    ∧ (∀ k ∈ [2, 3], d + k < data.num_days →
        (hasVar data n (d + k) Shift.D = true →
          bi (x n (d + k) Shift.D) + bi (p n d) ≤ 1)
        ∧ (hasVar data n (d + k) Shift.N = true →
          bi (x n (d + k) Shift.N) + bi (p n d) ≤ 1))

/-- Pair rest constraints over all base nurses and pair positions. -/
def pairRestOK (data : ProblemData) (x : Asg) (p : Ind) : Prop :=
  ∀ n < data.base_nurses, ∀ d < data.num_days - 1, pairRestND data x p n d

/-- Body of the singleton rest constraints of main.py lines 231-240 at one
nurse-day, applicable when the singleton entry at d is a real variable
(the night variable exists): the D and N variables one and two days after
may not be set together with the singleton variable. -/
def singletonRestND (data : ProblemData) (x : Asg) (s : Ind) (n d : Nat) : Prop :=
  hasVar data n d Shift.N = true →
    ∀ k ∈ [1, 2], d + k < data.num_days →
      (hasVar data n (d + k) Shift.D = true →
        bi (x n (d + k) Shift.D) + bi (s n d) ≤ 1)
      ∧ (hasVar data n (d + k) Shift.N = true →
        bi (x n (d + k) Shift.N) + bi (s n d) ≤ 1)

/-- Singleton rest constraints over all base nurses and days. -/
def singletonRestOK (data : ProblemData) (x : Asg) (s : Ind) : Prop :=
  ∀ n < data.base_nurses, ∀ d < data.num_days, singletonRestND data x s n d

/-- Weekend shutdown of extra nurses (main.py lines 124-126): on every
weekend day every allowed shift variable of every extra nurse is zero. -/
def weekendExtraOffOK (data : ProblemData) (x : Asg) : Prop :=
  ∀ d ∈ weekendFinset data, ∀ n, data.base_nurses ≤ n → n < data.num_nurses →
    ∀ s ∈ nurse_shifts data n, x n d s = false

/-- Hour constraint of extra nurses (main.py lines 155-160):
eight_hour_shift_hours times the workday shift sum equals
17 * eight_hour_shift_hours. -/
def extraHoursOK (data : ProblemData) (x : Asg) : Prop :=
  ∀ n, data.base_nurses ≤ n → n < data.num_nurses →
    data.eight_hour_shift_hours * extraShiftSum data x n
      = 17 * data.eight_hour_shift_hours

/-- The hour band constraint add_linear_constraint(h, min_hours, max_hours)
of main.py line 148. -/
def hourBandOK (data : ProblemData) (h : Int) : Prop :=
  data.min_hours ≤ h ∧ h ≤ data.max_hours

/-- Hour band applied to every base nurse (main.py lines 131-148). -/
def baseHoursOK (data : ProblemData) (x : Asg) : Prop :=
  ∀ n < data.base_nurses, hourBandOK data (nurseHours data x n)

/-- Total day-like shift count of main.py lines 254-257: D shifts of base
nurses over all days plus R8 shifts of extra nurses over workdays. -/
def total_day_shifts (data : ProblemData) (x : Asg) : Int :=
  (∑ n ∈ Finset.range data.base_nurses,
    ∑ d ∈ Finset.range data.num_days, xVar data x n d Shift.D)
  + (∑ n ∈ Finset.Ico data.base_nurses data.num_nurses,
    ∑ d ∈ workdayFinset data, xVar data x n d Shift.R8)

/-- The hardcoded theoretical minimum of main.py line 258:
9 * len(workdays) + 5 * len(weekend_days). -/
def min_needed_day_shifts (data : ProblemData) : Int :=
  9 * ((workdayFinset data).card : Int) + 5 * ((weekendFinset data).card : Int)

/-- The surplus variable and its defining constraint (main.py lines
259-260): surplus ranges over [0, num_days * num_nurses] and equals
total_day_shifts - min_needed_day_shifts. -/
def surplusOK (data : ProblemData) (x : Asg) (sp : Int) : Prop :=
  0 ≤ sp ∧ sp ≤ (data.num_days : Int) * (data.num_nurses : Int)
    ∧ total_day_shifts data x - min_needed_day_shifts data = sp

/-- Embeds the configuration-handling phase of build_and_solve: the source
performs no check of any kind on ProblemData before constructing the
CpModel (main.py lines 61-63 go straight from entry to model creation),
so every configuration, valid or not, passes through. -/
def config_validation (_ : ProblemData) : Except String Unit :=
  Except.ok ()

/-- Day indices referenced by the pair rest constraints for a pair start
at d (main.py lines 218-230), with the source's horizon guards. -/
def pairRestRefDays (H d : Nat) : List Int :=
  (if (d : Int) - 1 ≥ 0 then [(d : Int) - 1] else [])
    ++ (if d + 2 < H then [(d : Int) + 2] else [])
    ++ (if d + 3 < H then [(d : Int) + 3] else [])

/-- Day indices referenced by the singleton rest constraints for a
singleton at d (main.py lines 231-240), with the source's horizon guards. -/
def singletonRestRefDays (H d : Nat) : List Int :=
  (if d + 1 < H then [(d : Int) + 1] else [])
    ++ (if d + 2 < H then [(d : Int) + 2] else [])

/-- Small concrete instance for witnesses: two base nurses, six days. -/
def data1 : ProblemData := { base_nurses := 2, extra_nurses := 0, num_days := 6 }

/-- Witness assignment on data1: nurse 0 works nights on days 2 and 3. -/
def x1 : Asg := fun n d sh => n == 0 && decide (sh = Shift.N) && (d == 2 || d == 3)

/-- Witness pair indicators consistent with x1. -/
def p1 : Ind := fun n d => n == 0 && d == 2

/-- Small concrete instance for the C2 witness: two base nurses, five days. -/
def data2 : ProblemData := { base_nurses := 2, extra_nurses := 0, num_days := 5 }

/-- Witness assignment on data2: nurse 0 works a single night on day 1. -/
def x2 : Asg := fun n d sh => n == 0 && decide (sh = Shift.N) && d == 1

/-- Witness pair indicators consistent with x2: none. -/
def p2 : Ind := fun _ _ => false

/-- Witness singleton indicators consistent with x2. -/
def s2 : Ind := fun n d => n == 0 && d == 1

/-- Small concrete instance for the C4 witness: three base nurses
(including the night-forbidden index 2), four days. -/
def data4 : ProblemData := { base_nurses := 3, extra_nurses := 0, num_days := 4 }

/-- Witness assignment on data4: nurse 0 works a night on day 0, nurse 1 a
night on day 1, nurse 2 nothing. -/
def x4 : Asg := fun n d sh =>
  decide (sh = Shift.N) && ((n == 0 && d == 0) || (n == 1 && d == 1))

/-- The 17 workdays used by the C9 witness assignment. -/
def c9days : List Nat := [0, 1, 2, 3, 4, 7, 8, 9, 10, 11, 14, 15, 16, 17, 18, 21, 22]

/-- Witness assignment for C9: the extra nurse (index 21) works R8 on 17
workdays and nothing else is assigned. -/
def x9 : Asg := fun n d sh => n == 21 && decide (sh = Shift.R8) && c9days.contains d

/-- Concrete assignment for C10: nurse 0 works a day shift on day 28 only. -/
def x10 : Asg := fun n d sh => n == 0 && d == 28 && decide (sh = Shift.D)

/-- Concrete assignment for C5: base nurses 0 through 4 work day shifts on
day 5, a weekend day. -/
def x5 : Asg := fun n d sh => decide (n < 5) && d == 5 && decide (sh = Shift.D)

/-- Assignment where every nurse works a day shift every day (only the D
variables of base nurses exist, so only those count). -/
def allD : Asg := fun _ _ sh => decide (sh = Shift.D)

/-- Small concrete instance for the C6 witness: ten base nurses, one day. -/
def dataC6 : ProblemData := { base_nurses := 10, extra_nurses := 0, num_days := 1 }

/-- An invalid configuration: hour bounds with the minimum above the
maximum. -/
def badC7 : ProblemData := { min_hours := 150, max_hours := 146 }

/-- The everywhere-off assignment. -/
def allOff : Asg := fun _ _ _ => false

instance (data : ProblemData) (x : Asg) : Decidable (eligibilityOK data x) := by
  unfold eligibilityOK
  infer_instance

instance (data : ProblemData) (x : Asg) : Decidable (nightCountOK data x) := by
  unfold nightCountOK
  infer_instance

instance (data : ProblemData) (x : Asg) (p : Ind) :
    Decidable (pairConsistentOK data x p) := by
  unfold pairConsistentOK
  infer_instance

instance (data : ProblemData) (p : Ind) : Decidable (noTripleOK data p) := by
  unfold noTripleOK
  infer_instance

instance (data : ProblemData) (x : Asg) (p : Ind) (s : Ind) (n d : Nat) :
    Decidable (singletonConsistentND data x p s n d) := by
  unfold singletonConsistentND
  infer_instance

instance (data : ProblemData) (x : Asg) (p : Ind) (s : Ind) :
    Decidable (singletonConsistentOK data x p s) := by
  unfold singletonConsistentOK
  infer_instance

instance (data : ProblemData) (x : Asg) (p : Ind) (n d : Nat) :
    Decidable (pairRestND data x p n d) := by
  unfold pairRestND
  infer_instance

instance (data : ProblemData) (x : Asg) (p : Ind) :
    Decidable (pairRestOK data x p) := by
  unfold pairRestOK
  infer_instance

instance (data : ProblemData) (x : Asg) (s : Ind) (n d : Nat) :
    Decidable (singletonRestND data x s n d) := by
  unfold singletonRestND
  infer_instance

instance (data : ProblemData) (x : Asg) (s : Ind) :
    Decidable (singletonRestOK data x s) := by
  unfold singletonRestOK
  infer_instance

instance (data : ProblemData) (x : Asg) : Decidable (weekendExtraOffOK data x) := by
  unfold weekendExtraOffOK
  infer_instance

instance (data : ProblemData) (x : Asg) : Decidable (extraHoursOK data x) := by
  unfold extraHoursOK
  infer_instance

instance (data : ProblemData) (h : Int) : Decidable (hourBandOK data h) := by
  unfold hourBandOK
  infer_instance

instance (data : ProblemData) (x : Asg) : Decidable (baseHoursOK data x) := by
  unfold baseHoursOK
  infer_instance

instance (data : ProblemData) (x : Asg) (d : Nat) :
    Decidable (weekendCoverageOK data x d) := by
  unfold weekendCoverageOK
  infer_instance

instance (data : ProblemData) (x : Asg) (sp : Int) :
    Decidable (surplusOK data x sp) := by
  unfold surplusOK
  infer_instance

instance (x : Asg) (n d : Nat) : Decidable (fullyOff x n d) := by
  unfold fullyOff
  infer_instance

@[simp]
lemma bi_true : bi true = 1 := rfl

@[simp]
lemma bi_false : bi false = 0 := rfl

lemma eq_true_of_one_le_bi {b : Bool} (h : 1 ≤ bi b) : b = true := by
  cases b
  · simp at h
  · rfl

lemma eq_false_of_bi_le_zero {b : Bool} (h : bi b ≤ 0) : b = false := by
  cases b
  · rfl
  · simp at h

lemma nurse_shifts_base {data : ProblemData} {n : Nat}
    (hn : n < data.base_nurses) (hn2 : n ≠ 2) :
    nurse_shifts data n = [Shift.D, Shift.N] := by
  simp [nurse_shifts, hn, hn2]

lemma nurse_shifts_extra {data : ProblemData} {n : Nat}
    (hn : ¬ n < data.base_nurses) : nurse_shifts data n = [Shift.R8] := by
  simp [nurse_shifts, hn]

lemma N_not_mem_shifts_two (data : ProblemData) :
    Shift.N ∉ nurse_shifts data 2 := by
  unfold nurse_shifts
  split
  · simp
  · simp

lemma hasVar_true_iff {data : ProblemData} {n d : Nat} {s : Shift} :
    hasVar data n d s = true
      ↔ n < data.num_nurses ∧ d < data.num_days ∧ s ∈ nurse_shifts data n := by
  simp [hasVar, and_assoc]

lemma hasVar_baseD (data : ProblemData) {n d : Nat}
    (hn : n < data.base_nurses) (hd : d < data.num_days) :
    hasVar data n d Shift.D = true := by
  rw [hasVar_true_iff]
  refine ⟨by unfold ProblemData.num_nurses; omega, hd, ?_⟩
  by_cases h2 : n = 2
  · subst h2
    unfold nurse_shifts
    rw [if_pos hn]
    simp
  · rw [nurse_shifts_base hn h2]
    simp

lemma hasVar_baseN (data : ProblemData) {n d : Nat}
    (hn : n < data.base_nurses) (hn2 : n ≠ 2) (hd : d < data.num_days) :
    hasVar data n d Shift.N = true := by
  rw [hasVar_true_iff]
  exact ⟨by unfold ProblemData.num_nurses; omega, hd,
    by rw [nurse_shifts_base hn hn2]; simp⟩

lemma hasVar_two_N (data : ProblemData) (d : Nat) :
    hasVar data 2 d Shift.N = false := by
  have h := N_not_mem_shifts_two data
  simp [hasVar, h]

lemma x_not_listed {data : ProblemData} {x : Asg} (helig : eligibilityOK data x)
    {n d : Nat} {s : Shift} (hn : n < data.num_nurses) (hd : d < data.num_days)
    (hs : s ∉ nurse_shifts data n) : x n d s = false := by
  cases hx : x n d s
  · rfl
  · exact absurd (helig n hn d hd s hx) hs

lemma base_R8_false {data : ProblemData} {x : Asg} (helig : eligibilityOK data x)
    {n d : Nat} (hn : n < data.base_nurses) (hd : d < data.num_days) :
    x n d Shift.R8 = false := by
  apply x_not_listed helig (by unfold ProblemData.num_nurses; omega) hd
  by_cases h2 : n = 2
  · subst h2
    unfold nurse_shifts
    rw [if_pos hn]
    simp
  · rw [nurse_shifts_base hn h2]
    simp

lemma pair_exact {data : ProblemData} {x : Asg} {p : Ind}
    (hpc : pairConsistentOK data x p) {n d : Nat}
    (hn : n < data.base_nurses) (hn2 : n ≠ 2) (hd : d + 1 < data.num_days) :
    p n d = true ↔ (x n d Shift.N = true ∧ x n (d + 1) Shift.N = true) := by
  have hv1 := hasVar_baseN data hn hn2 (show d < data.num_days by omega)
  have hv2 := hasVar_baseN data hn hn2 hd
  obtain ⟨h1, h2, h3⟩ := (hpc n hn d (by omega)).1 (by rw [hv1, hv2]; rfl)
  constructor
  · intro hp
    rw [hp] at h1 h2
    simp at h1 h2
    exact ⟨eq_true_of_one_le_bi h1, eq_true_of_one_le_bi h2⟩
  · rintro ⟨ha, hb⟩
    rw [ha, hb] at h3
    simp at h3
    exact eq_true_of_one_le_bi (by omega)

lemma mem_ite_singleton {c : Prop} [Decidable c] {a e : Int}
    (h : e ∈ if c then [a] else ([] : List Int)) : c ∧ e = a := by
  split at h
  next hc =>
    simp at h
    exact ⟨hc, h⟩
  next hc =>
    simp at h

/-- C3: for every night-eligible base nurse and every day d with d+1 in
the horizon, in every feasible model solution the pair-start indicator at
d equals 1 exactly when Night is assigned on both d and d+1: the three
constraints p ≤ x(d), p ≤ x(d+1) and x(d) + x(d+1) - 1 ≤ p embedded in
pairConsistentOK make the indicator an exact boolean AND of the two night
assignments. -/
theorem c3_pair_indicator_exact_and (data : ProblemData) (x : Asg) (p : Ind)
    (hpc : pairConsistentOK data x p) (n d : Nat)
    (hn : n < data.base_nurses) (hn2 : n ≠ 2) (hd : d + 1 < data.num_days) :
    p n d = true ↔ (x n d Shift.N = true ∧ x n (d + 1) Shift.N = true) :=
  pair_exact hpc hn hn2 hd

/-- Witness for C3 at the concrete instance data1, nurse 0, day 2. -/
theorem c3_witness :
    p1 0 2 = true ↔ (x1 0 2 Shift.N = true ∧ x1 0 (2 + 1) Shift.N = true) :=
  c3_pair_indicator_exact_and data1 x1 p1 (by decide) 0 2 (by decide) (by decide)
    (by decide)

/-- C1: in every feasible model solution, for every night-eligible base
nurse and every pair of consecutive night assignments on days d and d+1,
the day before d (if in the horizon) is fully off, the two days after the
pair (d+2 and d+3, if in the horizon) are fully off, and no nurse ever
has three consecutive night assignments. -/
theorem c1_pair_rest (data : ProblemData) (x : Asg) (p : Ind)
    (helig : eligibilityOK data x) (hpc : pairConsistentOK data x p)
    (hnt : noTripleOK data p) (hpr : pairRestOK data x p)
    (n d : Nat) (hn : n < data.base_nurses) (hn2 : n ≠ 2)
    (hd : d + 1 < data.num_days)
    (hx1 : x n d Shift.N = true) (hx2 : x n (d + 1) Shift.N = true) :
    (1 ≤ d → fullyOff x n (d - 1))
    ∧ (d + 2 < data.num_days → fullyOff x n (d + 2))
    ∧ (d + 3 < data.num_days → fullyOff x n (d + 3))
    ∧ (∀ m, m < data.num_nurses → ∀ e, e + 2 < data.num_days →
        ¬(x m e Shift.N = true ∧ x m (e + 1) Shift.N = true
          ∧ x m (e + 2) Shift.N = true)) := by
  have hp : p n d = true := (pair_exact hpc hn hn2 hd).2 ⟨hx1, hx2⟩
  have hguard : (hasVar data n d Shift.N && hasVar data n (d + 1) Shift.N) = true := by
    rw [hasVar_baseN data hn hn2 (by omega), hasVar_baseN data hn hn2 hd]
    rfl
  obtain ⟨hbefore, hafter⟩ := hpr n hn d (by omega) hguard
  have noTripleAny : ∀ m, m < data.num_nurses → ∀ e, e + 2 < data.num_days →
      ¬(x m e Shift.N = true ∧ x m (e + 1) Shift.N = true
        ∧ x m (e + 2) Shift.N = true) := by
    intro m hm e he
    rintro ⟨he1, he2, he3⟩
    by_cases hmb : m < data.base_nurses
    · by_cases hm2 : m = 2
      · subst hm2
        exact absurd (helig 2 hm e (by omega) Shift.N he1) (N_not_mem_shifts_two data)
      · have hp1 : p m e = true := (pair_exact hpc hmb hm2 (by omega)).2 ⟨he1, he2⟩
        have hp2 : p m (e + 1) = true := (pair_exact hpc hmb hm2 (by omega)).2 ⟨he2, he3⟩
        have h := hnt m hmb e (by omega)
        rw [hp1, hp2] at h
        simp at h
    · have hmem : Shift.N ∈ nurse_shifts data m := helig m hm e (by omega) Shift.N he1
      rw [nurse_shifts_extra hmb] at hmem
      simp at hmem
  refine ⟨?_, ?_, ?_, noTripleAny⟩
  · intro h1d
    intro sh
    cases sh
    case D =>
      have h := hbefore h1d (hasVar_baseD data hn (by omega))
      rw [hp] at h
      simp at h
      exact eq_false_of_bi_le_zero (by omega)
    case N =>
      cases hxN : x n (d - 1) Shift.N
      · rfl
      · exfalso
        have hsucc : d - 1 + 1 = d := by omega
        have hp1 : p n (d - 1) = true := by
          rw [pair_exact hpc hn hn2 (show d - 1 + 1 < data.num_days by omega)]
          rw [hsucc]
          exact ⟨hxN, hx1⟩
        have h := hnt n hn (d - 1) (by omega)
        rw [hsucc, hp1, hp] at h
        simp at h
    case R8 => exact base_R8_false helig hn (by omega)
  · intro h2
    intro sh
    cases sh
    case D =>
      have h := (hafter 2 (by simp) h2).1 (hasVar_baseD data hn h2)
      rw [hp] at h
      simp at h
      exact eq_false_of_bi_le_zero (by omega)
    case N =>
      have h := (hafter 2 (by simp) h2).2 (hasVar_baseN data hn hn2 h2)
      rw [hp] at h
      simp at h
      exact eq_false_of_bi_le_zero (by omega)
    case R8 => exact base_R8_false helig hn h2
  · intro h3
    intro sh
    cases sh
    case D =>
      have h := (hafter 3 (by simp) h3).1 (hasVar_baseD data hn h3)
      rw [hp] at h
      simp at h
      exact eq_false_of_bi_le_zero (by omega)
    case N =>
      have h := (hafter 3 (by simp) h3).2 (hasVar_baseN data hn hn2 h3)
      rw [hp] at h
      simp at h
      exact eq_false_of_bi_le_zero (by omega)
    case R8 => exact base_R8_false helig hn h3

/-- Witness for C1 at the concrete instance data1, nurse 0, pair on days
2 and 3. -/
theorem c1_witness :
    (1 ≤ 2 → fullyOff x1 0 (2 - 1))
    ∧ (2 + 2 < data1.num_days → fullyOff x1 0 (2 + 2))
    ∧ (2 + 3 < data1.num_days → fullyOff x1 0 (2 + 3))
    ∧ (∀ m, m < data1.num_nurses → ∀ e, e + 2 < data1.num_days →
        ¬(x1 m e Shift.N = true ∧ x1 m (e + 1) Shift.N = true
          ∧ x1 m (e + 2) Shift.N = true)) :=
  c1_pair_rest data1 x1 p1 (by decide) (by decide) (by decide) (by decide)
    0 2 (by decide) (by decide) (by decide) (by decide) (by decide)

/-- C2: in every feasible model solution, for every night-eligible base
nurse, an isolated (non-paired) night assignment on day d forces the two
following days (if in the horizon) to be fully off, and the singleton
indicator at d equals 1 exactly when Night is assigned at d and is not
covered by a pair start ending or beginning at d. -/
theorem c2_singleton_rest (data : ProblemData) (x : Asg) (p : Ind) (s : Ind)
    (helig : eligibilityOK data x) (hpc : pairConsistentOK data x p)
    (hsc : singletonConsistentOK data x p s) (hsr : singletonRestOK data x s)
    (n d : Nat) (hn : n < data.base_nurses) (hn2 : n ≠ 2)
    (hd : d < data.num_days) :
    ((x n d Shift.N = true
        ∧ (1 ≤ d → x n (d - 1) Shift.N = false)
        ∧ (d + 1 < data.num_days → x n (d + 1) Shift.N = false)) →
      (d + 1 < data.num_days → fullyOff x n (d + 1))
      ∧ (d + 2 < data.num_days → fullyOff x n (d + 2)))
    ∧ (s n d = true
      ↔ (x n d Shift.N = true
        ∧ ¬((1 ≤ d ∧ p n (d - 1) = true)
          ∨ (d + 1 < data.num_days ∧ p n d = true)))) := by
  have hv := hasVar_baseN data hn hn2 hd
  obtain ⟨hA, hB, hC, hE⟩ := (hsc n hn d hd).1 hv
  have hiff : s n d = true
      ↔ (x n d Shift.N = true
        ∧ ¬((1 ≤ d ∧ p n (d - 1) = true)
          ∨ (d + 1 < data.num_days ∧ p n d = true))) := by
    constructor
    · intro hs
      rw [hs] at hA
      simp at hA
      refine ⟨eq_true_of_one_le_bi hA, ?_⟩
      rintro (⟨h1d, hpd⟩ | ⟨hdH, hpd⟩)
      · have h := hB h1d
        rw [hs, hpd] at h
        simp at h
      · have h := hC (by omega)
        rw [hs, hpd] at h
        simp at h
    · rintro ⟨hx, hnc⟩
      rw [not_or] at hnc
      obtain ⟨hnc1, hnc2⟩ := hnc
      have ha : (if 1 ≤ d then bi (p n (d - 1)) else 0) = 0 := by
        split
        next h1d =>
          have hp1 : p n (d - 1) = false := by
            cases hpv : p n (d - 1)
            · rfl
            · exact absurd ⟨h1d, hpv⟩ hnc1
          rw [hp1]
          rfl
        next => rfl
      have hb : (if d < data.num_days - 1 then bi (p n d) else 0) = 0 := by
        split
        next hdH =>
          have hp2 : p n d = false := by
            cases hpv : p n d
            · rfl
            · exact absurd ⟨by omega, hpv⟩ hnc2
          rw [hp2]
          rfl
        next => rfl
      rw [hx, ha, hb] at hE
      simp at hE
      exact eq_true_of_one_le_bi (by omega)
  refine ⟨?_, hiff⟩
  rintro ⟨hx, hprev, hnext⟩
  have hs : s n d = true := by
    rw [hiff]
    refine ⟨hx, ?_⟩
    rintro (⟨h1d, hpd⟩ | ⟨hdH, hpd⟩)
    · have hpe := (pair_exact hpc hn hn2
        (show d - 1 + 1 < data.num_days by omega)).1 hpd
      rw [show d - 1 + 1 = d from by omega] at hpe
      exact absurd hpe.1 (by rw [hprev h1d]; simp)
    · have hpe := (pair_exact hpc hn hn2 hdH).1 hpd
      exact absurd hpe.2 (by rw [hnext hdH]; simp)
  have hrest := hsr n hn d hd hv
  constructor
  · intro h1
    intro sh
    cases sh
    case D =>
      have h := (hrest 1 (by simp) h1).1 (hasVar_baseD data hn h1)
      rw [hs] at h
      simp at h
      exact eq_false_of_bi_le_zero (by omega)
    case N =>
      have h := (hrest 1 (by simp) h1).2 (hasVar_baseN data hn hn2 h1)
      rw [hs] at h
      simp at h
      exact eq_false_of_bi_le_zero (by omega)
    case R8 => exact base_R8_false helig hn h1
  · intro h2
    intro sh
    cases sh
    case D =>
      have h := (hrest 2 (by simp) h2).1 (hasVar_baseD data hn h2)
      rw [hs] at h
      simp at h
      exact eq_false_of_bi_le_zero (by omega)
    case N =>
      have h := (hrest 2 (by simp) h2).2 (hasVar_baseN data hn hn2 h2)
      rw [hs] at h
      simp at h
      exact eq_false_of_bi_le_zero (by omega)
    case R8 => exact base_R8_false helig hn h2

/-- Witness for C2 at the concrete instance data2, nurse 0, singleton
night on day 1. -/
theorem c2_witness :
    ((x2 0 1 Shift.N = true
        ∧ (1 ≤ 1 → x2 0 (1 - 1) Shift.N = false)
        ∧ (1 + 1 < data2.num_days → x2 0 (1 + 1) Shift.N = false)) →
      (1 + 1 < data2.num_days → fullyOff x2 0 (1 + 1))
      ∧ (1 + 2 < data2.num_days → fullyOff x2 0 (1 + 2)))
    ∧ (s2 0 1 = true
      ↔ (x2 0 1 Shift.N = true
        ∧ ¬((1 ≤ 1 ∧ p2 0 (1 - 1) = true)
          ∨ (1 + 1 < data2.num_days ∧ p2 0 1 = true)))) :=
  c2_singleton_rest data2 x2 p2 s2 (by decide) (by decide) (by decide) (by decide)
    0 1 (by decide) (by decide) (by decide)

/-- C4: in every feasible model solution, every night-eligible base nurse
has between 1 and 3 night shifts; the night-forbidden nurse index 2 has
night count exactly 0 for every assignment whatsoever, because no night
variable exists for it, so the night-count and rest constraints for it
add nothing. -/
theorem c4_night_count_bounds (data : ProblemData) (x : Asg)
    (hnc : nightCountOK data x) :
    (∀ n, n < data.base_nurses → n ≠ 2 →
      1 ≤ nightCount data x n ∧ nightCount data x n ≤ 3)
    ∧ nightCount data x 2 = 0 := by
  refine ⟨hnc, ?_⟩
  unfold nightCount
  apply Finset.sum_eq_zero
  intro d _
  simp [xVar, hasVar_two_N]

/-- Witness for C4 at the concrete instance data4. -/
theorem c4_witness :
    (∀ n, n < data4.base_nurses → n ≠ 2 →
      1 ≤ nightCount data4 x4 n ∧ nightCount data4 x4 n ≤ 3)
    ∧ nightCount data4 x4 2 = 0 :=
  c4_night_count_bounds data4 x4 (by decide)

/-- C9: in every feasible model solution of the default configuration, the
extra (R8-only) nurse, index 21, works exactly 17 R8 shifts, totaling
exactly 136 hours, all on workdays (the total R8 count over the whole
horizon also equals 17 because every weekend day is fully off), and has
no assignment of any kind on any weekend day. -/
theorem c9_extra_nurse (x : Asg)
    (helig : eligibilityOK defaultData x)
    (hwe : weekendExtraOffOK defaultData x)
    (hex : extraHoursOK defaultData x) :
    extraShiftSum defaultData x 21 = 17
    ∧ defaultData.eight_hour_shift_hours * extraShiftSum defaultData x 21 = 136
    ∧ totalR8Count defaultData x 21 = 17
    ∧ (∀ d ∈ weekendFinset defaultData, fullyOff x 21 d)
    ∧ (∀ d, d < defaultData.num_days →
        x 21 d Shift.D = false ∧ x 21 d Shift.N = false) := by
  have h8 : defaultData.eight_hour_shift_hours = 8 := rfl
  have hsh : nurse_shifts defaultData 21 = [Shift.R8] := by decide
  have hexS := hex 21 (by decide) (by decide)
  rw [h8] at hexS
  have hS : extraShiftSum defaultData x 21 = 17 := by omega
  have hweekend : ∀ d ∈ weekendFinset defaultData, fullyOff x 21 d := by
    intro d hd
    have hdr : d < defaultData.num_days :=
      Finset.mem_range.mp (Finset.mem_filter.mp hd).1
    intro sh
    cases sh
    case D =>
      apply x_not_listed helig (by decide) hdr
      rw [hsh]
      simp
    case N =>
      apply x_not_listed helig (by decide) hdr
      rw [hsh]
      simp
    case R8 =>
      exact hwe d hd 21 (by decide) (by decide) Shift.R8 (by rw [hsh]; simp)
  have hDN : ∀ d, d < defaultData.num_days →
      x 21 d Shift.D = false ∧ x 21 d Shift.N = false := by
    intro d hd
    constructor
    · apply x_not_listed helig (by decide) hd
      rw [hsh]
      simp
    · apply x_not_listed helig (by decide) hd
      rw [hsh]
      simp
  have htot : totalR8Count defaultData x 21 = 17 := by
    have hsplit := Finset.sum_filter_add_sum_filter_not
      (Finset.range defaultData.num_days) (fun d => is_weekend d = false)
      (fun d => xVar defaultData x 21 d Shift.R8)
    have hwz : ∑ d ∈ (Finset.range defaultData.num_days).filter
        (fun d => ¬ is_weekend d = false), xVar defaultData x 21 d Shift.R8 = 0 := by
      apply Finset.sum_eq_zero
      intro d hd
      have h := Finset.mem_filter.mp hd
      have hd2 : d ∈ weekendFinset defaultData := by
        refine Finset.mem_filter.mpr ⟨h.1, ?_⟩
        cases hbw : is_weekend d
        · exact absurd hbw h.2
        · rfl
      have hx0 : x 21 d Shift.R8 = false := hweekend d hd2 Shift.R8
      simp [xVar, hx0]
    have hwd : ∑ d ∈ (Finset.range defaultData.num_days).filter
        (fun d => is_weekend d = false), xVar defaultData x 21 d Shift.R8
        = extraShiftSum defaultData x 21 := by
      unfold extraShiftSum workdayFinset
      rw [hsh]
      simp
    unfold totalR8Count
    rw [← hsplit, hwz, hwd, hS]
    decide
  exact ⟨hS, by rw [hS, h8]; decide, htot, hweekend, hDN⟩

/-- Witness for C9 at the concrete assignment x9. -/
theorem c9_witness :
    extraShiftSum defaultData x9 21 = 17
    ∧ defaultData.eight_hour_shift_hours * extraShiftSum defaultData x9 21 = 136
    ∧ totalR8Count defaultData x9 21 = 17
    ∧ (∀ d ∈ weekendFinset defaultData, fullyOff x9 21 d)
    ∧ (∀ d, d < defaultData.num_days →
        x9 21 d Shift.D = false ∧ x9 21 d Shift.N = false) :=
  c9_extra_nurse x9 (by decide) (by decide) (by decide)

/-- C10: under the default configuration, nurse 0's day-shift coefficient
is 10 exactly on non-weekend days whose index modulo 7 is 0, 1, 2 or 3;
in particular the three extra days 28, 29, 30 of the partial fifth week
(indices 0, 1, 2 modulo 7, never weekends) get coefficient 10, and the
reduced coefficient is what enters the hour computation: an assignment
with a single day shift of nurse 0 on day 28 yields 10 total hours, not
the standard 11. -/
theorem c10_custom_hour_rule :
    dayCoef defaultData 0 28 = 10 ∧ dayCoef defaultData 0 29 = 10
    ∧ dayCoef defaultData 0 30 = 10
    ∧ (∀ d, d < defaultData.num_days →
        (dayCoef defaultData 0 d = 10
          ↔ (is_weekend d = false
            ∧ (d % 7 = 0 ∨ d % 7 = 1 ∨ d % 7 = 2 ∨ d % 7 = 3))))
    ∧ nurseHours defaultData x10 0 = 10 := by
  decide

/-- C5 evaluation: the default configuration sets both weekend bounds to
6, so a weekend day with exactly 5 base-nurse day assignments violates
the weekend coverage constraint, although the module documentation and
the hardcoded lower bound of the surplus term describe the band as
[5, 6]. -/
theorem c5_weekend_band_mismatch :
    is_weekend 5 = true
    ∧ baseDayCount defaultData x5 5 = 5
    ∧ defaultData.weekend_shift_min = 6
    ∧ defaultData.weekend_shift_max = 6
    ∧ ¬ weekendCoverageOK defaultData x5 5 := by
  decide

/-- C6 counterexample: under the default configuration the surplus
constraint forces surplus 404 for the all-day assignment, while the
formula of the claim — configured coverage lower bounds times day counts
— would give 651 - 255 = 396, because the code hardcodes 9 and 5 instead
of workday_shift_min = 9 and weekend_shift_min = 6. -/
theorem c6_counterexample :
    surplusOK defaultData allD 404
    ∧ defaultData.workday_shift_min * ((workdayFinset defaultData).card : Int)
        + defaultData.weekend_shift_min * ((weekendFinset defaultData).card : Int)
      = 255
    ∧ total_day_shifts defaultData allD - 255 = 396
    ∧ (404 : Int) ≠ 396 := by
  decide

/-- C6 amended: the third objective term equals the surplus of total
day-like assignments above the hardcoded quantity 9 times the workday
count plus 5 times the weekend-day count; this coincides with the
configured-lower-bound formula exactly when workday_shift_min = 9 and
weekend_shift_min = 5. -/
theorem c6_surplus_hardcoded (data : ProblemData) (x : Asg) (sp : Int)
    (h : surplusOK data x sp) :
    sp + min_needed_day_shifts data = total_day_shifts data x
    ∧ min_needed_day_shifts data
        = 9 * ((workdayFinset data).card : Int)
          + 5 * ((weekendFinset data).card : Int)
    ∧ ((data.workday_shift_min = 9 ∧ data.weekend_shift_min = 5) →
        sp + (data.workday_shift_min * ((workdayFinset data).card : Int)
          + data.weekend_shift_min * ((weekendFinset data).card : Int))
          = total_day_shifts data x) := by
  obtain ⟨h0, h1, h2⟩ := h
  have hmn : min_needed_day_shifts data
      = 9 * ((workdayFinset data).card : Int)
        + 5 * ((weekendFinset data).card : Int) := rfl
  refine ⟨by omega, hmn, ?_⟩
  rintro ⟨hw, he⟩
  rw [hw, he]
  omega

/-- Witness for C6 at the concrete instance dataC6 with surplus 1. -/
theorem c6_witness :
    1 + min_needed_day_shifts dataC6 = total_day_shifts dataC6 allD
    ∧ min_needed_day_shifts dataC6
        = 9 * ((workdayFinset dataC6).card : Int)
          + 5 * ((weekendFinset dataC6).card : Int)
    ∧ ((dataC6.workday_shift_min = 9 ∧ dataC6.weekend_shift_min = 5) →
        1 + (dataC6.workday_shift_min * ((workdayFinset dataC6).card : Int)
          + dataC6.weekend_shift_min * ((weekendFinset dataC6).card : Int))
          = total_day_shifts dataC6 allD) :=
  c6_surplus_hardcoded dataC6 allD 1 (by decide)

/-- C7 counterexample: the invalid configuration badC7 (min_hours 150
above max_hours 146) passes the configuration-handling phase untouched —
there is no fail-fast validation before model construction. -/
theorem c7_counterexample :
    config_validation badC7 = Except.ok ()
    ∧ badC7.max_hours < badC7.min_hours :=
  ⟨rfl, by decide⟩

/-- C7 amended: no configuration validation exists; every configuration
with inverted hour bounds passes straight to model construction, and the
invalidity surfaces only through the per-nurse hour-band constraint being
unsatisfiable for every assignment, that is, through model
infeasibility. -/
theorem c7_no_validation (data : ProblemData)
    (hbad : data.max_hours < data.min_hours) :
    config_validation data = Except.ok ()
    ∧ ∀ x : Asg, ∀ n : Nat, ¬ hourBandOK data (nurseHours data x n) := by
  refine ⟨rfl, ?_⟩
  intro x n
  rintro ⟨hlo, hhi⟩
  omega

/-- Witness for C7 at the concrete invalid configuration badC7. -/
theorem c7_witness :
    config_validation badC7 = Except.ok ()
    ∧ ¬ hourBandOK badC7 (nurseHours badC7 allOff 0) :=
  ⟨(c7_no_validation badC7 (by decide)).1,
    (c7_no_validation badC7 (by decide)).2 allOff 0⟩

/-- C8: the rest constraints emitted for a pair start at any position
d < H - 1 (including the boundary position H - 2), and for a singleton at
any position d < H, reference only day indices inside [0, H - 1], for
every horizon length H: each of the terms d - 1, d + 2, d + 3 (and d + 1,
d + 2 for singletons) is guarded by the source's horizon bound checks. -/
theorem c8_rest_refs_in_horizon (H d : Nat) :
    (d < H - 1 → ∀ e ∈ pairRestRefDays H d, 0 ≤ e ∧ e < (H : Int))
    ∧ (d < H → ∀ e ∈ singletonRestRefDays H d, 0 ≤ e ∧ e < (H : Int)) := by
  constructor
  · intro hd e he
    unfold pairRestRefDays at he
    rcases List.mem_append.mp he with h12 | h3
    · rcases List.mem_append.mp h12 with h1 | h2
      · obtain ⟨hg, rfl⟩ := mem_ite_singleton h1
        omega
      · obtain ⟨hg, rfl⟩ := mem_ite_singleton h2
        omega
    · obtain ⟨hg, rfl⟩ := mem_ite_singleton h3
      omega
  · intro hd e he
    unfold singletonRestRefDays at he
    rcases List.mem_append.mp he with h1 | h2
    · obtain ⟨hg, rfl⟩ := mem_ite_singleton h1
      omega
    · obtain ⟨hg, rfl⟩ := mem_ite_singleton h2
      omega

/-- Witness for C8: the pair at boundary-adjacent position 3 of a 5-day
horizon references day 2, which is inside [0, 4]. -/
theorem c8_witness :
    (2 : Int) ∈ pairRestRefDays 5 3 ∧ 0 ≤ (2 : Int) ∧ (2 : Int) < 5 :=
  ⟨by decide, (c8_rest_refs_in_horizon 5 3).1 (by decide) 2 (by decide)⟩

end WorkSchedule
